import Mathlib

/-!
Shallow embedding of the document-processing front-end client workflow
(job submission, status polling, result retrieval), translated from:
  - src/frontend/src/components/JobStatus.vue      (Status Poller)
  - src/frontend/src/components/ResultDownload.vue (Result Retriever)
  - the root App component (Workflow Coordinator, `uploadFiles`,
    `handleCompleted`, `resetProcessor`)

Conventions of the embedding:
  - JavaScript `undefined`/`null`/absent fields are `Option.none`.
  - JavaScript NaN-producing numeric results are `Option.none` at the
    numeric layer (`Option ℚ`); defined numbers are `some q`.
  - JS truthiness of a string-valued field (`r.error`, `status.progress`)
    is: present and non-empty.
  - `Math.floor(Math.log bytes / Math.log 1024)` is embedded as the exact
    base-1024 integer logarithm, which is its mathematical value for
    positive integer inputs (the double-precision evaluation agrees at
    every input considered below).
-/

/-- ResultItem shape consumed by the client:
`{ filename: string, size?: number, type?: string, error?: string }`. -/
structure ResultItem where
  filename : String
  size : Option ℕ
  type : Option String
  error : Option String
deriving DecidableEq, Repr

/-- JS truthiness of an optional string value: `undefined`, `null` and the
empty string are falsy. -/
def jsTruthyStr : Option String → Bool
  | none => false
  | some s => s ≠ ""

/-- `hasErrors` computed from ResultDownload.vue:
`props.results.some(r => r.error)`. -/
def hasErrors (results : List ResultItem) : Bool :=
  results.any (fun r => jsTruthyStr r.error)

/-- The `v-if` condition on the "Download All as ZIP" button in
ResultDownload.vue: `results.length > 1 && !hasErrors`. -/
def showDownloadAll (results : List ResultItem) : Bool :=
  decide (results.length > 1) && !hasErrors results

/-- The unit labels of `formatFileSize`:
`const sizes = ['Bytes', 'KB', 'MB', 'GB']`. -/
def sizes : List String := ["Bytes", "KB", "MB", "GB"]

/-- `Math.floor(Math.log(bytes) / Math.log(1024))` from ResultDownload.vue,
for a positive integer argument: the base-1024 integer logarithm (the
largest `i` with `1024 ^ i ≤ b`), which is the exact mathematical value of
the floored quotient of logarithms. -/
def unitIndex (b : ℕ) : ℕ := Nat.log 1024 b

/-- `Math.round` (round half toward +∞), restricted to the nonnegative
rationals produced in `formatFileSize`. -/
def jsRoundNat (q : ℚ) : ℕ := (⌊q + 1 / 2⌋).toNat

/-- Decimal rendering of `n / 100` the way JS number-to-string prints the
values produced by `Math.round(x * 100) / 100`: trailing zeros of the
two-digit fraction are dropped, an integer prints with no point. -/
def ratRender (n : ℕ) : String :=
  let ip := n / 100
  let fr := n % 100
  if fr = 0 then toString ip
  else if fr % 10 = 0 then toString ip ++ "." ++ toString (fr / 10)
  else if fr < 10 then toString ip ++ ".0" ++ toString fr
  else toString ip ++ "." ++ toString fr

/-- `formatFileSize` from ResultDownload.vue:
```
if (!bytes || bytes === 0) return '0 Bytes'
const k = 1024
const sizes = ['Bytes', 'KB', 'MB', 'GB']
const i = Math.floor(Math.log(bytes) / Math.log(k))
return Math.round(bytes / Math.pow(k, i) * 100) / 100 + ' ' + sizes[i]
```
The argument is `Option ℕ` (`none` models an absent/undefined `size`
field); `!bytes` is true exactly on `none` and `some 0`. An index past the
end of `sizes` concatenates as JS `undefined`. -/
def formatFileSize : Option ℕ → String
  | none => "0 Bytes"
  | some b =>
    if b = 0 then "0 Bytes"
    else
      let i := unitIndex b
      let n := jsRoundNat ((b : ℚ) / (1024 : ℚ) ^ i * 100)
      ratRender n ++ " " ++ sizes.getD i "undefined"

/-- C6: the byte-size formatter uses base-1024 scaling with a zero guard:
`formatFileSize 0 = "0 Bytes"`, `formatFileSize 1024 = "1 KB"`,
`formatFileSize 1536 = "1.5 KB"`, `formatFileSize 1048576 = "1 MB"`. -/
theorem formatFileSize_values :
    formatFileSize (some 0) = "0 Bytes" ∧
    formatFileSize (some 1024) = "1 KB" ∧
    formatFileSize (some 1536) = "1.5 KB" ∧
    formatFileSize (some 1048576) = "1 MB" := by
  have h1 : unitIndex 1024 = 1 :=
    Nat.log_eq_of_pow_le_of_lt_pow (by norm_num) (by norm_num)
  have h2 : unitIndex 1536 = 1 :=
    Nat.log_eq_of_pow_le_of_lt_pow (by norm_num) (by norm_num)
  have h3 : unitIndex 1048576 = 2 :=
    Nat.log_eq_of_pow_le_of_lt_pow (by norm_num) (by norm_num)
  have r1 : jsRoundNat (((1024 : ℕ) : ℚ) / (1024 : ℚ) ^ 1 * 100) = 100 := by
    unfold jsRoundNat; norm_num; decide
  have r2 : jsRoundNat (((1536 : ℕ) : ℚ) / (1024 : ℚ) ^ 1 * 100) = 150 := by
    unfold jsRoundNat; norm_num; decide
  have r3 : jsRoundNat (((1048576 : ℕ) : ℚ) / (1024 : ℚ) ^ 2 * 100) = 100 := by
    unfold jsRoundNat; norm_num; decide
  refine ⟨rfl, ?_, ?_, ?_⟩
  · simp only [formatFileSize, h1, r1]; decide
  · simp only [formatFileSize, h2, r2]; decide
  · simp only [formatFileSize, h3, r3]; decide

/-- C10: a ResultItem whose `size` is absent (undefined/null) or zero is
formatted as exactly `"0 Bytes"`: the `!bytes` guard fires before any
logarithm or unit-index computation, so no NaN and no out-of-range unit
index can arise from a missing size. -/
theorem formatFileSize_missing_or_zero (b : Option ℕ)
    (h : b = none ∨ b = some 0) : formatFileSize b = "0 Bytes" := by
  rcases h with h | h <;> subst h <;> rfl

/-- Witness for C10 at the concrete inputs `none` and `some 0`. -/
theorem formatFileSize_missing_or_zero_witness :
    formatFileSize none = "0 Bytes" ∧ formatFileSize (some 0) = "0 Bytes" :=
  ⟨formatFileSize_missing_or_zero none (Or.inl rfl),
   formatFileSize_missing_or_zero (some 0) (Or.inr rfl)⟩

/-- C7: the bulk "download all" button is offered iff the manifest has more
than one item and no item carries a (truthy, i.e. non-empty) error string:
`v-if="results.length > 1 && !hasErrors"` with
`hasErrors = results.some(r => r.error)`. -/
theorem downloadAll_offered_iff (results : List ResultItem) :
    showDownloadAll results = true ↔
      results.length > 1 ∧ ∀ r ∈ results, jsTruthyStr r.error = false := by
  simp only [showDownloadAll, hasErrors, Bool.and_eq_true, decide_eq_true_eq,
    Bool.not_eq_true', List.any_eq_false, Bool.not_eq_true]

/-- Witness for C7 at a concrete two-item, error-free manifest. -/
theorem downloadAll_offered_iff_witness :
    showDownloadAll
      [⟨"a.html", some 10, none, none⟩, ⟨"b.html", some 20, none, none⟩] = true := by
  exact (downloadAll_offered_iff _).mpr (by decide)

/-- The status-response body consumed by JobStatus.vue:
`{ status, progress: "N/M", processor, results?: ResultItem[] }`.
Optional fields are `Option`. -/
structure StatusData where
  status : String
  progress : Option String
  processor : Option String
  results : Option (List ResultItem)
deriving DecidableEq, Repr

/-- State owned by the JobStatus.vue component instance:
`status` is the `status` ref (initially `null`), `timerActive` records
whether the `setInterval` handle is still live (not yet cleared by
`clearInterval`), and `emitted` is the ordered list of payloads passed to
`emit('completed', response.data.results)`. -/
structure PollerState where
  status : Option StatusData
  timerActive : Bool
  emitted : List (Option (List ResultItem))
deriving DecidableEq, Repr

/-- The success continuation of `checkStatus` in JobStatus.vue, applied to
one resolved response:
```
status.value = response.data
if (response.data.status === 'completed') {
  clearInterval(polling.value)
  emit('completed', response.data.results)
}
```
Note the only branch that clears the interval tests for `'completed'`;
there is no branch for `'failed'`. -/
def applyResponse (s : PollerState) (r : StatusData) : PollerState :=
  let s1 := { s with status := some r }
  if r.status = "completed" then
    { s1 with timerActive := false, emitted := s1.emitted ++ [r.results] }
  else s1

/-- One resolution of a `checkStatus` call: `none` is a transport failure
(the `catch` logs and changes nothing), `some r` a resolved response.
The body runs unconditionally — it never consults the timer, so it models
equally an in-flight request that resolves after `clearInterval`. -/
def checkStatus (s : PollerState) : Option StatusData → PollerState
  | none => s
  | some r => applyResponse s r

/-- One firing of the 2-second `setInterval` tick, with the outcome `o` its
request would have: if the interval is still live a status request is
issued (second component `true`) and its resolution applied; a cleared
interval fires no request. -/
def tick (s : PollerState) (o : Option StatusData) : PollerState × Bool :=
  if s.timerActive then (checkStatus s o, true) else (s, false)

/-- `onMounted`: `checkStatus()` is called once and the interval installed;
the component state before the first response is applied. -/
def mountPoller : PollerState :=
  { status := none, timerActive := true, emitted := [] }

/-- `onUnmounted`: `if (polling.value) clearInterval(polling.value)` —
only the interval handle is cleared; nothing else is touched and no guard
is installed against in-flight requests. -/
def unmount (s : PollerState) : PollerState :=
  { s with timerActive := false }

/-- A concrete `failed` status response. -/
def failedResp : StatusData :=
  { status := "failed", progress := some "1/3",
    processor := some "word_to_html", results := none }

/-- A concrete `processing` status response. -/
def processingResp : StatusData :=
  { status := "processing", progress := some "2/3",
    processor := some "word_to_html", results := none }

/-- A concrete `completed` status response carrying three result items. -/
def completedResp : StatusData :=
  { status := "completed", progress := some "3/3",
    processor := some "latex_equations",
    results := some [⟨"a.html", some 10, none, none⟩,
                     ⟨"b.html", some 20, none, none⟩,
                     ⟨"c.html", some 30, none, none⟩] }

/-- Counterexample to C1: mount the poller and apply a response whose
status is `"failed"`; the interval is still live, and the next tick issues
a further status request — the poll cycle does not stop on `failed`. -/
theorem failed_keeps_polling_cex :
    (checkStatus mountPoller (some failedResp)).timerActive = true ∧
    (tick (checkStatus mountPoller (some failedResp)) (some failedResp)).2
      = true := by
  constructor <;> rfl

/-- C1 as amended: a response reporting status `"failed"` overwrites the
displayed status but leaves the poll cycle untouched — the interval stays
in whatever state it was in and no completion event is emitted; only a
`"completed"` response stops the cycle. -/
theorem failed_updates_status_without_stopping
    (s : PollerState) (r : StatusData) (h : r.status = "failed") :
    checkStatus s (some r) = { s with status := some r } := by
  simp only [checkStatus, applyResponse, h]
  simp

/-- Witness for the amended C1 at a concrete state and response. -/
theorem failed_updates_status_without_stopping_witness :
    checkStatus mountPoller (some failedResp)
      = { mountPoller with status := some failedResp } :=
  failed_updates_status_without_stopping mountPoller failedResp rfl

/-- Counterexample to C2: unmount (cancel) while a request is in flight;
when that request later resolves, `checkStatus`'s continuation still runs,
overwriting `status` and even emitting the completion event. -/
theorem stale_response_mutates_after_unmount_cex :
    (checkStatus (unmount (checkStatus mountPoller (some processingResp)))
        (some completedResp)).status
      ≠ (unmount (checkStatus mountPoller (some processingResp))).status ∧
    (checkStatus (unmount (checkStatus mountPoller (some processingResp)))
        (some completedResp)).emitted
      ≠ (unmount (checkStatus mountPoller (some processingResp))).emitted := by
  constructor <;> decide

/-- C2 as amended: cancellation (unmount) does stop the scheduled cycle —
no tick after `clearInterval` issues a request — but a request already in
flight at cancellation still mutates state when it resolves: its response
overwrites `status` (and a `"completed"` response additionally emits). -/
theorem unmount_stops_requests_but_inflight_applies
    (s : PollerState) (r : StatusData) (o : Option StatusData) :
    (tick (unmount s) o).2 = false ∧
    (checkStatus (unmount s) (some r)).status = some r := by
  refine ⟨rfl, ?_⟩
  simp only [checkStatus, applyResponse]
  by_cases h : r.status = "completed" <;> simp [h]

/-- State owned by the Workflow Coordinator (root App component):
`files`, `jobId`, `completedJobId`, `results`, `processorType`. Files are
identified by name (their bytes play no role here); `results` is `none`
when the ref holds JS `undefined`. -/
structure CoordState where
  files : List String
  jobId : Option String
  completedJobId : Option String
  results : Option (List ResultItem)
  processorType : String
deriving DecidableEq, Repr

/-- The Coordinator's initial refs: `files = []`, `jobId = null`,
`completedJobId = null`, `results = []`, `processorType = 'word_to_html'`. -/
def initCoord : CoordState :=
  { files := [], jobId := none, completedJobId := none,
    results := some [], processorType := "word_to_html" }

/-- `handleCompleted(jobResults)` from the Coordinator:
```
results.value = jobResults
completedJobId.value = jobId.value
jobId.value = null
```
-/
def handleCompleted (c : CoordState) (jobResults : Option (List ResultItem)) :
    CoordState :=
  { c with results := jobResults, completedJobId := c.jobId, jobId := none }

/-- `resetProcessor` from the Coordinator: clears files, both job ids and
the results. -/
def resetProcessor (c : CoordState) : CoordState :=
  { c with files := [], jobId := none, completedJobId := none,
           results := some [] }

/-- Outcome of the `axios.post('/api/process', formData)` call. -/
inductive UploadResponse where
  | success (job_id : String)
  | failure
deriving DecidableEq, Repr

/-- Observable outcome of one run of the Coordinator's `uploadFiles`:
the state afterwards, whether the job-creation POST was issued, the
`files`/`processor_type` payload placed in the form data, and whether the
error alert was shown. -/
structure UploadRun where
  state : CoordState
  networkCallIssued : Bool
  sentFiles : List String
  sentProcessorType : String
  alerted : Bool
deriving DecidableEq, Repr

/-- `uploadFiles` from the Coordinator:
```
const formData = new FormData()
files.value.forEach(file => formData.append('files', file))
formData.append('processor_type', processorType.value)
try {
  const response = await axios.post('http://localhost:8000/api/process', formData)
  jobId.value = response.data.job_id
  files.value = []
} catch (error) {
  console.error(...); alert('Upload failed. ...')
}
```
The form data is built from whatever `files.value` holds — there is no
file-count check — and the POST is issued unconditionally. On success the
job id is stored and the selection cleared; on failure an alert is shown
and no ref is written. -/
def uploadFiles (c : CoordState) (resp : UploadResponse) : UploadRun :=
  match resp with
  | .success jid =>
    { state := { c with jobId := some jid, files := [] },
      networkCallIssued := true, sentFiles := c.files,
      sentProcessorType := c.processorType, alerted := false }
  | .failure =>
    { state := c, networkCallIssued := true, sentFiles := c.files,
      sentProcessorType := c.processorType, alerted := true }

/-- Counterexample to C3: the Coordinator's initial state has an empty file
selection, yet `uploadFiles` still issues the job-creation network call
(with an empty `files` payload) — no rejection happens before the call. -/
theorem empty_selection_still_posts_cex :
    initCoord.files = [] ∧
    (uploadFiles initCoord (.success "abc123")).networkCallIssued = true := by
  constructor <;> rfl

/-- C3 as amended: the Coordinator's `uploadFiles` performs no
empty-selection validation — a submission attempt with zero selected files
still issues the network call to the job-creation endpoint, carrying an
empty `files` payload. -/
theorem upload_empty_selection_not_rejected
    (c : CoordState) (resp : UploadResponse) (h : c.files = []) :
    (uploadFiles c resp).networkCallIssued = true ∧
    (uploadFiles c resp).sentFiles = [] := by
  cases resp <;> exact ⟨rfl, h⟩

/-- Witness for the amended C3 at the initial Coordinator state. -/
theorem upload_empty_selection_not_rejected_witness :
    (uploadFiles initCoord .failure).networkCallIssued = true ∧
    (uploadFiles initCoord .failure).sentFiles = [] :=
  upload_empty_selection_not_rejected initCoord .failure rfl

/-- C8: on submission failure the error is surfaced (`alerted`), the whole
Coordinator state is left unchanged — in particular the active job id is
not set (no Poller gets mounted, since `JobStatus` is rendered only when
`jobId` is non-null) and the file selection is kept for resubmission. -/
theorem upload_failure_preserves_state_and_alerts (c : CoordState) :
    (uploadFiles c .failure).alerted = true ∧
    (uploadFiles c .failure).state = c ∧
    (uploadFiles c .failure).state.jobId = c.jobId ∧
    (uploadFiles c .failure).state.files = c.files :=
  ⟨rfl, rfl, rfl, rfl⟩

/-- C4: applying a `"completed"` response stops the poll cycle — the
interval is cleared and no later tick issues a request — and emits the
result manifest upward exactly once (exactly one payload, the response's
`results`, is appended to the emit log); `handleCompleted` then stores the
manifest, moves the job id from `jobId` to `completedJobId`, and clears
the active `jobId`. -/
theorem completed_stops_emits_and_hands_off
    (s : PollerState) (r : StatusData) (o : Option StatusData)
    (c : CoordState) (h : r.status = "completed") :
    (checkStatus s (some r)).timerActive = false ∧
    (tick (checkStatus s (some r)) o).2 = false ∧
    (checkStatus s (some r)).emitted = s.emitted ++ [r.results] ∧
    (handleCompleted c r.results).results = r.results ∧
    (handleCompleted c r.results).completedJobId = c.jobId ∧
    (handleCompleted c r.results).jobId = none := by
  simp [checkStatus, applyResponse, h, tick, handleCompleted]

/-- Witness for C4: the spec's end-to-end scenario — job `"abc123"`, a
`"completed"` response with three result items, applied to a polling
state. -/
theorem completed_stops_emits_and_hands_off_witness :
    (checkStatus mountPoller (some completedResp)).timerActive = false ∧
    (tick (checkStatus mountPoller (some completedResp)) none).2 = false ∧
    (checkStatus mountPoller (some completedResp)).emitted
      = mountPoller.emitted ++ [completedResp.results] ∧
    (handleCompleted { initCoord with jobId := some "abc123" }
        completedResp.results).results = completedResp.results ∧
    (handleCompleted { initCoord with jobId := some "abc123" }
        completedResp.results).completedJobId
      = ({ initCoord with jobId := some "abc123" } : CoordState).jobId ∧
    (handleCompleted { initCoord with jobId := some "abc123" }
        completedResp.results).jobId = none :=
  completed_stops_emits_and_hands_off mountPoller completedResp none
    { initCoord with jobId := some "abc123" } rfl

/-- JS `Number(s)` restricted to the strings this client meets: the empty
string converts to 0, a nonneg decimal-digit string to its value, anything
else to NaN (`none`). -/
def jsNumber (s : String) : Option ℚ :=
  if s = "" then some 0 else (s.toNat?).map (fun n => (n : ℚ))

/-- The ternary on the destructured progress pair in JobStatus.vue:
`return total > 0 ? (completed / total) * 100 : 0`.
A `none` operand is JS NaN/undefined: `NaN > 0` and `undefined > 0` are
false (branch yields 0); a NaN `completed` with positive `total` yields
NaN. -/
def pctFromPair (completed total : Option ℚ) : Option ℚ :=
  match total with
  | some t =>
    if 0 < t then
      match completed with
      | some c => some (c / t * 100)
      | none => none
    else some 0
  | none => some 0

/-- `progressPercentage` computed from JobStatus.vue:
```
if (!status.value || !status.value.progress) return 0
const [completed, total] = status.value.progress.split('/').map(Number)
return total > 0 ? (completed / total) * 100 : 0
```
The result is an `Option ℚ` (`none` = NaN). The `!` guard is truthiness:
a null status, an absent progress field or an empty progress string all
return 0 before any split happens; `total` is `undefined` (`none`) when
the string has no `/`. -/
def progressPercentage (status : Option StatusData) : Option ℚ :=
  match status with
  | none => some 0
  | some d =>
    match d.progress with
    | none => some 0
    | some p =>
      if p = "" then some 0
      else
        let nums := (p.splitOn "/").map jsNumber
        pctFromPair ((nums.get? 0).join) ((nums.get? 1).join)

/-- C5: for every progress pair `(c, t)`, the percentage is
`c / t * 100` when `t > 0` and `0` when `t = 0` — the `total > 0` ternary
means the division is never evaluated with a zero divisor. -/
theorem pctFromPair_spec (c t : ℚ) :
    (0 < t → pctFromPair (some c) (some t) = some (c / t * 100)) ∧
    (t = 0 → pctFromPair (some c) (some t) = some 0) := by
  constructor
  · intro h
    simp [pctFromPair, h]
  · intro h
    subst h
    simp [pctFromPair]

/-- Witness for C5 at the pairs `(2, 4)` and `(2, 0)`. -/
theorem pctFromPair_spec_witness :
    pctFromPair (some 2) (some 4) = some (2 / 4 * 100) ∧
    pctFromPair (some 2) (some 0) = some 0 :=
  ⟨(pctFromPair_spec 2 4).1 (by norm_num), (pctFromPair_spec 2 0).2 rfl⟩

/-- C9: `progressPercentage` is total at the component boundary — a null
status object or an absent progress field returns 0 (never NaN, never an
exception), the guard returning before the `"N/M"` string is ever split. -/
theorem progressPercentage_total_at_boundary (st : Option StatusData)
    (h : st = none ∨ ∃ d, st = some d ∧ d.progress = none) :
    progressPercentage st = some 0 := by
  rcases h with h | ⟨d, rfl, hd⟩
  · subst h; rfl
  · simp [progressPercentage, hd]

/-- Witness for C9 at a null status and at a status without progress. -/
theorem progressPercentage_total_at_boundary_witness :
    progressPercentage none = some 0 ∧
    progressPercentage
      (some { status := "queued", progress := none,
              processor := none, results := none }) = some 0 :=
  ⟨progressPercentage_total_at_boundary none (Or.inl rfl),
   progressPercentage_total_at_boundary _ (Or.inr ⟨_, rfl, rfl⟩)⟩
